import Mathlib

/-
  Shallow embedding of the bParking reservation core:
  entities (Booking, Notification, Waitlist, RecurringBooking, Parking),
  the booking resolver operations (checkAvailability, createBooking,
  cancelBooking, checkInBooking, extendBooking), the waitlist resolver
  operations (joinWaitlist, leaveWaitlist, convertWaitlistToBooking,
  updateWaitlistPositions), and the scheduler ticks
  (processRecurringBookings, processWaitlist).

  Conventions: timestamps are milliseconds since the Unix epoch (Int);
  date-only columns are days since the epoch (Int); money is Rat.
  TypeORM lifecycle hooks (BeforeInsert/BeforeUpdate) are modelled as
  explicit validation on every save; a thrown validation error inside a
  resolver try/catch is modelled as the failure result with the persisted
  state unchanged.
-/

namespace BParking

def msPerMinute : Int := 60000
def msPerHour : Int := 3600000
def msPerDay : Int := 86400000

/-! ## Booking entity (src/entities/Booking.ts) -/

inductive BookingStatus
  | pending | confirmed | active | completed | cancelled | noShow
deriving DecidableEq, Repr

inductive PaymentStatus
  | pending | paid | failed | refunded | partialRefund
deriving DecidableEq, Repr

structure CancellationRecord where
  reason : String
  cancelledBy : String
  refundAmount : Rat
  cancelledAt : Int
deriving DecidableEq, Repr

structure ExtensionRecord where
  originalEndTime : Int
  newEndTime : Int
  additionalAmount : Rat
  extendedAt : Int
deriving DecidableEq, Repr

/-- Field `spaceId` is optional here because `convertWaitlistToBooking` and the
recurring-booking scheduler build a `Booking` without ever assigning it,
while `createBooking` always does. -/
structure Booking where
  id : Nat
  userId : Nat
  parkingId : Nat
  spaceId : Option String
  startTime : Int
  endTime : Int
  status : BookingStatus
  totalAmount : Rat
  paymentStatus : PaymentStatus
  checkInTime : Option Int := none
  checkOutTime : Option Int := none
  cancellationReason : Option CancellationRecord := none
  extensionHistory : List ExtensionRecord := []
deriving DecidableEq, Repr

/-- Models `Booking.canCheckIn`: CONFIRMED, no prior check-in, and now within
`[startTime - 15min, endTime]`. -/
def canCheckIn (b : Booking) (now : Int) : Bool :=
  b.status == .confirmed &&
  b.checkInTime == none &&
  decide (b.startTime - 15 * msPerMinute ≤ now) &&
  decide (now ≤ b.endTime)

/-- Models `Booking.canBeCancelled`: PENDING or CONFIRMED, strictly before
`startTime - 2h`. -/
def canBeCancelled (b : Booking) (now : Int) : Bool :=
  (b.status == .pending || b.status == .confirmed) &&
  decide (now < b.startTime - 2 * msPerHour)

/-- Models `(this.startTime.getTime() - now.getTime()) / (1000*60*60)`: an
exact rational number of hours. -/
def hoursUntilStart (b : Booking) (now : Int) : Rat :=
  ((b.startTime - now : Int) : Rat) / ((msPerHour : Int) : Rat)

/-- Models `Booking.calculateRefundAmount`. -/
def calculateRefundAmount (b : Booking) (now : Int) : Rat :=
  if !(canBeCancelled b now) then 0
  else if 24 ≤ hoursUntilStart b now then b.totalAmount
  else if 2 ≤ hoursUntilStart b now then b.totalAmount * (1 / 2)
  else 0

/-- Models `Booking.isExpired`: now strictly past `endTime`. -/
def bookingIsExpired (b : Booking) (now : Int) : Bool :=
  decide (b.endTime < now)

/-- Models `Booking.canBeExtended`: ACTIVE, not expired, checked in. -/
def canBeExtended (b : Booking) (now : Int) : Bool :=
  b.status == .active && !(bookingIsExpired b now) && !(b.checkInTime == none)

/-- Models `Booking.validateBookingTimes` (a `@BeforeInsert`/`@BeforeUpdate` hook):
returns the error message thrown, or none if the save is accepted. -/
def validateError (b : Booking) (now : Int) : Option String :=
  if b.endTime ≤ b.startTime then some "Start time must be before end time"
  else if b.startTime < now then some "Start time cannot be in the past"
  else none

def validateBookingFine (b : Booking) (now : Int) : Bool :=
  (validateError b now).isNone

/-! ## Notification entity (Notification part of src/entities/Booking.ts) -/

inductive NotificationStatus
  | pending | sent | delivered | read | failed
deriving DecidableEq, Repr

structure Notification where
  id : Nat
  userId : Nat
  status : NotificationStatus
  retryCount : Nat
  maxRetries : Nat
  nextRetryAt : Option Int := none
  failureReason : Option String := none
  expiresAt : Option Int := none
  scheduledFor : Option Int := none
  sentAt : Option Int := none
deriving DecidableEq, Repr

/-- Models `Notification.isExpired`. -/
def notifIsExpired (n : Notification) (now : Int) : Bool :=
  match n.expiresAt with
  | some e => decide (e < now)
  | none => false

/-- Models `Notification.canRetry`: FAILED, retryCount < maxRetries, not expired. -/
def canRetry (n : Notification) (now : Int) : Bool :=
  n.status == .failed && n.retryCount < n.maxRetries && !(notifIsExpired n now)

/-- Models `Notification.markAsFailed(reason)`: sets FAILED, records the reason,
increments `retryCount`, and, when `canRetry` holds afterwards, sets
`nextRetryAt = now + 5^(retryCount - 1)` minutes (the post-increment count). -/
def markAsFailed (n : Notification) (reason : String) (now : Int) : Notification :=
  let n1 : Notification :=
    { n with status := .failed, failureReason := some reason, retryCount := n.retryCount + 1 }
  if canRetry n1 now then
    { n1 with nextRetryAt := some (now + (5 ^ (n1.retryCount - 1) : Nat) * msPerMinute) }
  else n1

/-- Models `Notification.markAsSent`. -/
def markAsSent (n : Notification) (now : Int) : Notification :=
  { n with status := .sent, sentAt := some now }

/-! ## Parking entity (src/entities/Parking.ts) -/

structure ParkingSpace where
  id : String
  isAvailable : Bool
deriving DecidableEq, Repr

structure Parking where
  id : Nat
  totalSpaces : Nat
  parkingSpaces : List ParkingSpace
  isActive : Bool
  isVerified : Bool
  hourlyRate : Rat
  dailyRate : Rat
deriving DecidableEq, Repr

/-! ## BookingResolver (src/graphql/resolvers/PaymentResolver.ts) -/

/-- The half-open interval overlap test `a.start < b.end && b.start < a.end`
used by the waitlist resolver and the scheduler conflict queries. -/
def overlaps (aStart aEnd bStart bEnd : Int) : Bool :=
  decide (aStart < bEnd) && decide (bStart < aEnd)

/-- The conflict count used by `joinWaitlist`, `convertWaitlistToBooking`,
`processWaitlist` and `processRecurringBookings`: CONFIRMED/ACTIVE bookings
of the parking whose `[startTime, endTime)` overlaps the requested window. -/
def conflictCount (bookings : List Booking) (pid : Nat) (s e : Int) : Nat :=
  (bookings.filter (fun b =>
    b.parkingId == pid &&
    (b.status == .confirmed || b.status == .active) &&
    overlaps b.startTime b.endTime s e)).length

/-- The conflict query of `BookingResolver.checkAvailability`:
`startTime: Between(startTime, endTime)` — CONFIRMED/ACTIVE bookings of the
parking whose start lies in the inclusive range `[s, e]` (SQL BETWEEN). -/
def betweenConflicts (bookings : List Booking) (pid : Nat) (s e : Int) : List Booking :=
  bookings.filter (fun b =>
    b.parkingId == pid &&
    (b.status == .confirmed || b.status == .active) &&
    decide (s ≤ b.startTime) && decide (b.startTime ≤ e))

structure AvailabilityResult where
  isAvailable : Bool
  availableSpaces : List String
  availableCount : Nat
deriving DecidableEq, Repr

/-- Models `BookingResolver.checkAvailability` (parking already found). -/
def checkAvailability (parking : Parking) (bookings : List Booking)
    (s e : Int) : AvailabilityResult :=
  if !(parking.isActive && parking.isVerified) then
    { isAvailable := false, availableSpaces := [], availableCount := 0 }
  else
    let conflicting := betweenConflicts bookings parking.id s e
    let occupiedSpaceIds := conflicting.map (fun b => b.spaceId.getD "")
    let availableSpaces := (parking.parkingSpaces.filter (fun sp =>
      sp.isAvailable && !(occupiedSpaceIds.contains sp.id))).map (fun sp => sp.id)
    { isAvailable := availableSpaces.length > 0,
      availableSpaces := availableSpaces,
      availableCount := availableSpaces.length }

/-- Models `Math.ceil((endTime - startTime) / divisor)` on integers (ceiling
division for a positive divisor, matching JS on our inputs). -/
def jsCeilDiv (a d : Int) : Int := -((-a) / d)

/-- Models `Date.getHours()` modelled in UTC on an epoch-milliseconds value. -/
def jsGetHours (t : Int) : Int := (t / msPerHour) % 24

/-- Models `BookingResolver.calculatePricing` (total amount): hourly up to 24h,
daily above, plus a 20% surcharge when the start hour is 7-9 or 17-19. -/
def calculatePricing (parking : Parking) (s e : Int) : Rat :=
  let duration := jsCeilDiv (e - s) msPerHour
  let baseAmount : Rat :=
    if duration ≤ 24 then (duration : Rat) * parking.hourlyRate
    else ((jsCeilDiv duration 24 : Int) : Rat) * parking.dailyRate
  let startHour := jsGetHours s
  let isPeakTime := (7 ≤ startHour && startHour ≤ 9) || (17 ≤ startHour && startHour ≤ 19)
  if isPeakTime then baseAmount + baseAmount * (1 / 5) else baseAmount

structure BookingResponse where
  success : Bool
  bookings : List Booking
  created : Option Booking := none
deriving DecidableEq, Repr

/-- Models `BookingResolver.createBooking` (parking already found; the requester is
`userId`, the stored bookings are `bookings`, the new row id is `nextId`).
The created row carries the entity default status PENDING; the
`@BeforeInsert` validation throwing is the failure result. -/
def createBooking (parking : Parking) (bookings : List Booking) (nextId : Nat)
    (userId : Nat) (inputSpaceId : Option String) (s e now : Int) : BookingResponse :=
  if !(parking.isActive && parking.isVerified) then
    { success := false, bookings := bookings }
  else
    let availability := checkAvailability parking bookings s e
    if !availability.isAvailable then
      { success := false, bookings := bookings }
    else
      match (match inputSpaceId with
             | some sid => some sid
             | none => availability.availableSpaces.head?) with
      | none => { success := false, bookings := bookings }
      | some spaceId =>
        if !(availability.availableSpaces.contains spaceId) then
          { success := false, bookings := bookings }
        else
          let amount := calculatePricing parking s e
          let booking : Booking :=
            { id := nextId, userId := userId, parkingId := parking.id,
              spaceId := some spaceId, startTime := s, endTime := e,
              status := .pending, totalAmount := amount, paymentStatus := .pending }
          if validateBookingFine booking now then
            { success := true, bookings := bookings ++ [booking], created := some booking }
          else
            { success := false, bookings := bookings }

/-- Models `BookingResolver.cancelBooking` on a found, owned booking. -/
def cancelBooking (b : Booking) (reason : String) (now : Int) : Bool × Booking :=
  if !(canBeCancelled b now) then (false, b)
  else
    let refundAmount := calculateRefundAmount b now
    let b1 : Booking :=
      { b with status := .cancelled,
               cancellationReason := some
                 { reason := reason, cancelledBy := "user",
                   refundAmount := refundAmount, cancelledAt := now } }
    if validateBookingFine b1 now then (true, b1) else (false, b)

/-- Models `BookingResolver.checkInBooking` on a found, owned booking: guarded by
`canCheckIn`; the save runs the `@BeforeUpdate` validation. -/
def checkInBooking (b : Booking) (now : Int) : Bool × Booking :=
  if !(canCheckIn b now) then (false, b)
  else
    let b1 : Booking := { b with checkInTime := some now, status := .active }
    if validateBookingFine b1 now then (true, b1) else (false, b)

/-- Models `BookingResolver.extendBooking` on the stored bookings list. -/
def extendBooking (parking : Parking) (bookings : List Booking)
    (bookingId userId : Nat) (newEndTime now : Int) : Bool × List Booking :=
  match bookings.find? (fun b => b.id == bookingId && b.userId == userId) with
  | none => (false, bookings)
  | some b =>
    if !(canBeExtended b now) then (false, bookings)
    else if newEndTime ≤ b.endTime then (false, bookings)
    else
      let availability := checkAvailability parking bookings b.endTime newEndTime
      if !availability.isAvailable then (false, bookings)
      else
        let additionalAmount := calculatePricing parking b.endTime newEndTime
        let b1 : Booking :=
          { b with endTime := newEndTime,
                   totalAmount := b.totalAmount + additionalAmount,
                   extensionHistory := b.extensionHistory ++
                     [{ originalEndTime := b.endTime, newEndTime := newEndTime,
                        additionalAmount := additionalAmount, extendedAt := now }] }
        if validateBookingFine b1 now then
          (true, bookings.map (fun x => if x.id == b.id then b1 else x))
        else (false, bookings)

/-! ## ParkingResolver.checkParkingAvailability (src/unnamed/part_016) -/

def bookingStatusString : BookingStatus → String
  | .pending => "pending"
  | .confirmed => "confirmed"
  | .active => "active"
  | .completed => "completed"
  | .cancelled => "cancelled"
  | .noShow => "no_show"

/-- Models `ParkingResolver.checkParkingAvailability`: proper half-open overlap on
the interval, but the status filter compares the stored enum string against
`'confirmed'` and `'checked_in'` — and `'checked_in'` is not a value of
`BookingStatus`, so ACTIVE bookings never match. Returns `hasAvailability`
and the free space ids (spaces named "1".."totalSpaces"). -/
def checkParkingAvailability (parking : Parking) (bookings : List Booking)
    (s e : Int) (requiredSpaces : Nat) : Bool × List String :=
  let overlappingBookings := bookings.filter (fun b =>
    b.parkingId == parking.id &&
    (bookingStatusString b.status == "confirmed" ||
     bookingStatusString b.status == "checked_in") &&
    decide (b.startTime < e) && decide (s < b.endTime))
  let bookedSpaceIds := overlappingBookings.map (fun b => b.spaceId.getD "")
  let allSpaceIds := (List.range parking.totalSpaces).map (fun i => toString (i + 1))
  let availableSpaceIds := allSpaceIds.filter (fun sid => !(bookedSpaceIds.contains sid))
  (availableSpaceIds.length ≥ requiredSpaces, availableSpaceIds)

/-! ## Waitlist entity (src/entities/Waitlist.ts, in src/unnamed/part_006) -/

inductive WaitlistStatus
  | active | notified | expired | cancelled | converted
deriving DecidableEq, Repr

structure WaitlistEntry where
  id : Nat
  userId : Nat
  parkingId : Nat
  desiredStartTime : Int
  desiredEndTime : Int
  requiredSpaces : Nat
  position : Nat
  status : WaitlistStatus
  expiresAt : Option Int := none
  notifiedAt : Option Int := none
  convertedAt : Option Int := none
  convertedBookingId : Option Nat := none
  createdAt : Int
deriving DecidableEq, Repr

/-- Models `Waitlist.markAsNotified`: NOTIFIED with a 15-minute response window. -/
def markAsNotified (w : WaitlistEntry) (now : Int) : WaitlistEntry :=
  { w with status := .notified, notifiedAt := some now,
           expiresAt := some (now + 15 * msPerMinute) }

/-- Models `Waitlist.markAsConverted`. -/
def markAsConverted (w : WaitlistEntry) (bookingId : Nat) (now : Int) : WaitlistEntry :=
  { w with status := .converted, convertedAt := some now,
           convertedBookingId := some bookingId }

/-- Models `Waitlist.markAsExpired`. -/
def markAsExpired (w : WaitlistEntry) : WaitlistEntry :=
  { w with status := .expired }

/-- Models `Waitlist.markAsCancelled`. -/
def markAsCancelled (w : WaitlistEntry) : WaitlistEntry :=
  { w with status := .cancelled }

/-! ## WaitlistResolver (src/unnamed/part_014) -/

/-- Stable insertion into a list ordered by `createdAt` ascending. -/
def insertByCreatedAt (w : WaitlistEntry) : List WaitlistEntry → List WaitlistEntry
  | [] => [w]
  | x :: xs =>
    if w.createdAt ≤ x.createdAt then w :: x :: xs
    else x :: insertByCreatedAt w xs

/-- The store's `ORDER BY createdAt ASC` as a stable insertion sort. -/
def orderByCreatedAt : List WaitlistEntry → List WaitlistEntry
  | [] => []
  | x :: xs => insertByCreatedAt x (orderByCreatedAt xs)

/-- The ACTIVE entries of a parking ordered by `createdAt` ascending — the
query underlying `updateWaitlistPositions`. -/
def sortedActives (pid : Nat) (ws : List WaitlistEntry) : List WaitlistEntry :=
  orderByCreatedAt (ws.filter (fun w => w.parkingId == pid && w.status == .active))

/-- The per-entry effect of the renumbering loop: an entry found among the
sorted ACTIVE entries receives its index + 1 as position. -/
def applyPositions (actives : List WaitlistEntry) (w : WaitlistEntry) :
    WaitlistEntry :=
  match actives.findIdx? (fun a => a.id == w.id) with
  | some i => { w with position := i + 1 }
  | none => w

/-- Models `WaitlistResolver.updateWaitlistPositions`: renumbers the ACTIVE entries
of the parking 1..N in `createdAt` order; everything else is untouched. -/
def updateWaitlistPositions (pid : Nat) (ws : List WaitlistEntry) : List WaitlistEntry :=
  ws.map (applyPositions (sortedActives pid ws))

/-- Models `WaitlistResolver.joinWaitlist` (parking and user already found):
rejects a bad interval, a duplicate active entry, and a currently available
parking; otherwise appends an ACTIVE entry at position `count(ACTIVE)+1`
expiring 24h after the desired start. -/
def joinWaitlist (parking : Parking) (ws : List WaitlistEntry)
    (bookings : List Booking) (nextId userId : Nat)
    (desiredStartTime desiredEndTime : Int) (requiredSpaces : Nat)
    (now : Int) : Except String (List WaitlistEntry × WaitlistEntry) :=
  if desiredEndTime ≤ desiredStartTime then
    .error "Start time must be before end time"
  else if desiredStartTime ≤ now then
    .error "Start time must be in the future"
  else if (ws.any (fun w =>
      w.userId == userId && w.parkingId == parking.id &&
      (w.status == .active || w.status == .notified) &&
      overlaps w.desiredStartTime w.desiredEndTime desiredStartTime desiredEndTime)) then
    .error "You already have an active waitlist entry for this time slot"
  else
    let conflicting := conflictCount bookings parking.id desiredStartTime desiredEndTime
    let availableSpaces : Int := (parking.totalSpaces : Int) - (conflicting : Int)
    if (requiredSpaces : Int) ≤ availableSpaces then
      .error "Parking is currently available. Please book directly."
    else
      let currentWaitlistCount :=
        (ws.filter (fun w => w.parkingId == parking.id && w.status == .active)).length
      let entry : WaitlistEntry :=
        { id := nextId, userId := userId, parkingId := parking.id,
          desiredStartTime := desiredStartTime, desiredEndTime := desiredEndTime,
          requiredSpaces := requiredSpaces, position := currentWaitlistCount + 1,
          status := .active, expiresAt := some (desiredStartTime + 24 * msPerHour),
          createdAt := now }
      .ok (ws ++ [entry], entry)

/-- Models `WaitlistResolver.leaveWaitlist` on a found, owned entry: only from
ACTIVE/NOTIFIED; cancels it and renumbers the remaining ACTIVE entries. -/
def leaveWaitlist (ws : List WaitlistEntry) (waitlistId userId : Nat) :
    Except String (List WaitlistEntry) :=
  match ws.find? (fun w => w.id == waitlistId && w.userId == userId) with
  | none => .error "Waitlist entry not found"
  | some w =>
    if !(w.status == .active || w.status == .notified) then
      .error "Cannot leave waitlist - entry is not active"
    else
      let ws1 := ws.map (fun x => if x.id == w.id then markAsCancelled x else x)
      .ok (updateWaitlistPositions w.parkingId ws1)

structure ConvertResult where
  waitlists : List WaitlistEntry
  bookings : List Booking
  createdBooking : Booking
  notifications : List (Nat × String)
deriving DecidableEq, Repr

/-- Models `WaitlistResolver.convertWaitlistToBooking` on the stored state: finds
the owned NOTIFIED entry, re-checks capacity with the overlap query, builds
a CONFIRMED booking (no `spaceId` is ever assigned), marks the entry
CONVERTED, renumbers, and sends a confirmation. The `@BeforeInsert`
validation throwing is the error result. -/
def convertWaitlistToBooking (parking : Parking) (ws : List WaitlistEntry)
    (bookings : List Booking) (nextId : Nat) (waitlistId userId : Nat)
    (now : Int) : Except String ConvertResult :=
  match ws.find? (fun w =>
      w.id == waitlistId && w.userId == userId && w.status == .notified) with
  | none => .error "Waitlist entry not found or not available for conversion"
  | some w =>
    let conflicting := conflictCount bookings w.parkingId w.desiredStartTime w.desiredEndTime
    let availableSpaces : Int := (parking.totalSpaces : Int) - (conflicting : Int)
    if availableSpaces < (w.requiredSpaces : Int) then
      .error "Parking is no longer available"
    else
      let duration : Rat :=
        ((w.desiredEndTime - w.desiredStartTime : Int) : Rat) / ((msPerHour : Int) : Rat)
      let booking : Booking :=
        { id := nextId, userId := userId, parkingId := w.parkingId,
          spaceId := none, startTime := w.desiredStartTime,
          endTime := w.desiredEndTime, status := .confirmed,
          totalAmount := duration * parking.hourlyRate, paymentStatus := .pending }
      match validateError booking now with
      | some msg => .error msg
      | none =>
        let ws1 := ws.map (fun x =>
          if x.id == w.id then markAsConverted x booking.id now else x)
        .ok { waitlists := updateWaitlistPositions w.parkingId ws1,
              bookings := bookings ++ [booking],
              createdBooking := booking,
              notifications := [(userId, "Booking Confirmed")] }

/-! ## Calendar model for date-only values (JS `Date` day arithmetic)

A date-only value is its day count since 1970-01-01. `setDate(getDate()+n)`
is `+ n`; `getDay()` is the weekday (0 = Sunday); `setMonth` goes through
the civil (proleptic Gregorian) calendar, using the standard era-based
conversion, with day-of-month overflow rolling into the following month
exactly as in JS. -/

/-- Models `Date.getDay()`: 0 = Sunday .. 6 = Saturday; 1970-01-01 was a Thursday. -/
def weekday (d : Int) : Int := (d + 4) % 7

/-- Civil date (y, m, d) of a day count (proleptic Gregorian). -/
def civilFromDays (z0 : Int) : Int × Int × Int :=
  let z := z0 + 719468
  let era := z / 146097
  let doe := z - era * 146097
  let yoe := (doe - doe / 1460 + doe / 36524 - doe / 146096) / 365
  let y := yoe + era * 400
  let doy := doe - (365 * yoe + yoe / 4 - yoe / 100)
  let mp := (5 * doy + 2) / 153
  let d := doy - (153 * mp + 2) / 5 + 1
  let m := mp + (if mp < 10 then 3 else -9)
  (y + (if m ≤ 2 then 1 else 0), m, d)

/-- Day count of a civil date; affine in `d`, so an out-of-range day rolls
over into the following months exactly like JS `setMonth`. -/
def daysFromCivil (y0 m d : Int) : Int :=
  let y := y0 - (if m ≤ 2 then 1 else 0)
  let era := y / 400
  let yoe := y - era * 400
  let doy := (153 * (m + (if 2 < m then -3 else 9)) + 2) / 5 + d - 1
  let doe := yoe * 365 + yoe / 4 - yoe / 100 + doy
  era * 146097 + doe - 719468

/-- Models `current.setMonth(current.getMonth() + k)` on a date-only value:
advance the month index by `k` keeping the day-of-month, normalizing. -/
def jsAddMonths (days k : Int) : Int :=
  match civilFromDays days with
  | (y, m, d) =>
    let total := y * 12 + (m - 1) + k
    daysFromCivil (total / 12) (total % 12 + 1) d

/-- The `do { current.setDate(current.getDate() + 1) } while (cond)` loops of
`calculateNextBookingDate`, with fuel; `none` models the loop never
terminating (a day filter no weekday satisfies). -/
def doWhileAdvance (cond : Int → Bool) : Nat → Int → Option Int
  | 0, _ => none
  | fuel + 1, d =>
    let d1 := d + 1
    if cond d1 then doWhileAdvance cond fuel d1 else some d1

/-! ## RecurringBooking entity (src/entities/RecurringBooking.ts) -/

inductive RecurrencePattern
  | daily | weekly | monthly | weekdays | weekends | custom
deriving DecidableEq, Repr

inductive RecurringBookingStatus
  | active | paused | cancelled | completed
deriving DecidableEq, Repr

structure BookingHistoryEntry where
  bookingId : Nat
  date : Int
  entryStatus : String
deriving DecidableEq, Repr

structure FailureHistoryEntry where
  date : Int
  reason : String
  retryCount : Nat
  nextRetry : Option Int
deriving DecidableEq, Repr

/-- The `"HH:MM"` time columns appear parsed into hour/minute fields. -/
structure RecurringBooking where
  id : Nat
  userId : Nat
  parkingId : Nat
  pattern : RecurrencePattern
  rstatus : RecurringBookingStatus
  startHour : Int
  startMinute : Int
  endHour : Int
  endMinute : Int
  nextBookingDate : Int
  maxOccurrences : Option Nat := none
  completedOccurrences : Nat := 0
  customInterval : Option Int := none
  customDaysOfWeek : Option (List Int) := none
  basePrice : Rat
  bookingHistory : List BookingHistoryEntry := []
  failureHistory : List FailureHistoryEntry := []
deriving DecidableEq, Repr

/-- Models `this.customPattern?.interval || 1`: the JS `||` replaces the falsy 0 (and a
missing value) with 1. -/
def jsIntervalOrOne (i : Option Int) : Int :=
  match i with
  | none => 1
  | some v => if v == 0 then 1 else v

/-- Models `RecurringBooking.calculateNextBookingDate` on the date-only day count:
DAILY adds `interval` days, WEEKLY `7*interval` days, MONTHLY `interval`
months, WEEKDAYS/WEEKENDS/CUSTOM advance day-by-day while the weekday is
rejected by the pattern (CUSTOM without a `daysOfWeek` list adds one day). -/
def calculateNextBookingDate (r : RecurringBooking) : Option Int :=
  let current := r.nextBookingDate
  match r.pattern with
  | .daily => some (current + jsIntervalOrOne r.customInterval)
  | .weekly => some (current + 7 * jsIntervalOrOne r.customInterval)
  | .monthly => some (jsAddMonths current (jsIntervalOrOne r.customInterval))
  | .weekdays =>
    doWhileAdvance (fun d => weekday d == 0 || weekday d == 6) 7 current
  | .weekends =>
    doWhileAdvance (fun d => !(weekday d == 0) && !(weekday d == 6)) 7 current
  | .custom =>
    match r.customDaysOfWeek with
    | some targetDays =>
      doWhileAdvance (fun d => !(targetDays.contains (weekday d))) 7 current
    | none => some (current + 1)

/-- Models `RecurringBooking.shouldCreateBooking`: ACTIVE, not completed, and the
next booking date has arrived (date-only comparison; `today` is the day
count of the current instant). -/
def shouldCreateBooking (r : RecurringBooking) (now : Int) : Bool :=
  let isCompleted :=
    r.rstatus == .completed ||
    (match r.maxOccurrences with
     | some maxO => decide (maxO ≤ r.completedOccurrences)
     | none => false)
  r.rstatus == .active && !isCompleted && decide (r.nextBookingDate ≤ now / msPerDay)

/-- Models `RecurringBooking.addFailureToHistory(reason)` (default retryCount 0):
appends an entry dated today with a retry hint `(retryCount+1)` hours out. -/
def failureEntry (now : Int) (reason : String) : FailureHistoryEntry :=
  { date := now / msPerDay, reason := reason, retryCount := 0,
    nextRetry := some (now + 1 * msPerHour) }

/-! ## SchedulerService (src/services/scheduler.ts) -/

structure SchedState where
  parkings : List Parking
  rules : List RecurringBooking
  waitlists : List WaitlistEntry
  bookings : List Booking
  notifications : List (Nat × String)
  nextId : Nat
deriving DecidableEq, Repr

/-- The due-rule query of `processRecurringBookings`:
`status = ACTIVE AND nextBookingDate < now` (the date-only column holds
midnight of its day). -/
def isDueRule (r : RecurringBooking) (now : Int) : Bool :=
  r.rstatus == .active && decide (r.nextBookingDate * msPerDay < now)

/-- The booking interval a rule materializes: its next booking date at the
rule's start/end time of day (`setHours(h, m, 0, 0)`). -/
def ruleStartMs (r : RecurringBooking) : Int :=
  r.nextBookingDate * msPerDay + r.startHour * msPerHour + r.startMinute * msPerMinute

def ruleEndMs (r : RecurringBooking) : Int :=
  r.nextBookingDate * msPerDay + r.endHour * msPerHour + r.endMinute * msPerMinute

/-- One iteration of the `processRecurringBookings` loop. A rule that is not
due is kept unchanged. For a due rule: a missing parking only mutates the
in-memory entity (no save), so the stored rule is unchanged; a conflict
appends a failure entry and advances the date; otherwise the booking insert
runs the `@BeforeInsert` validation — on success the booking is stored, the
history/occurrence count/date advance, and a notification is sent; a
validation throw lands in the catch, which records the failure but does NOT
advance the date. `none` propagates a diverging date computation. -/
def processOneRule (now : Int) (st : SchedState) (r : RecurringBooking) :
    Option SchedState :=
  if !(isDueRule r now) then some { st with rules := st.rules ++ [r] }
  else
    match st.parkings.find? (fun p => p.id == r.parkingId) with
    | none => some { st with rules := st.rules ++ [r] }
    | some _parking =>
      let startTime := ruleStartMs r
      let endTime := ruleEndMs r
      if 0 < conflictCount st.bookings r.parkingId startTime endTime then
        match calculateNextBookingDate r with
        | none => none
        | some nd =>
          let fh := r.failureHistory ++ [failureEntry now "Time slot not available"]
          let r1 := { r with failureHistory := fh, nextBookingDate := nd }
          some { st with rules := st.rules ++ [r1] }
      else
        let booking : Booking :=
          { id := st.nextId, userId := r.userId, parkingId := r.parkingId,
            spaceId := none, startTime := startTime, endTime := endTime,
            status := .confirmed, totalAmount := r.basePrice,
            paymentStatus := .pending }
        match validateError booking now with
        | some msg =>
          let fh := r.failureHistory ++ [failureEntry now ("Error: " ++ msg)]
          let r1 := { r with failureHistory := fh }
          some { st with rules := st.rules ++ [r1] }
        | none =>
          match calculateNextBookingDate r with
          | none => none
          | some nd =>
            let hist : BookingHistoryEntry :=
              { bookingId := booking.id, date := r.nextBookingDate,
                entryStatus := "created" }
            let r1 :=
              { r with bookingHistory := r.bookingHistory ++ [hist],
                       completedOccurrences := r.completedOccurrences + 1,
                       nextBookingDate := nd }
            some { st with
              rules := st.rules ++ [r1],
              bookings := st.bookings ++ [booking],
              notifications := st.notifications ++
                [(r.userId, "Recurring Booking Created")],
              nextId := st.nextId + 1 }

/-- Models `SchedulerService.processRecurringBookings`: one tick over all rules. -/
def processRecurringBookings (now : Int) (st : SchedState) : Option SchedState :=
  List.foldlM (processOneRule now) { st with rules := [] } st.rules

/-- Models `SchedulerService.processWaitlist`: for every ACTIVE entry whose desired
window now has enough capacity (overlap count against the unchanged
bookings), mark it NOTIFIED and send an availability notification; no
renumbering of positions happens here. -/
def processWaitlist (now : Int) (st : SchedState) : SchedState :=
  { st with
    waitlists := st.waitlists.map (fun w =>
      match st.parkings.find? (fun p => p.id == w.parkingId) with
      | none => w
      | some parking =>
        if w.status == .active &&
           decide ((w.requiredSpaces : Int) ≤
             (parking.totalSpaces : Int) -
             (conflictCount st.bookings w.parkingId w.desiredStartTime w.desiredEndTime : Int))
        then markAsNotified w now
        else w),
    notifications := st.notifications ++
      (st.waitlists.filterMap (fun w =>
        match st.parkings.find? (fun p => p.id == w.parkingId) with
        | none => none
        | some parking =>
          if w.status == .active &&
             decide ((w.requiredSpaces : Int) ≤
               (parking.totalSpaces : Int) -
               (conflictCount st.bookings w.parkingId w.desiredStartTime w.desiredEndTime : Int))
          then some (w.userId, "Parking Available")
          else none)) }

/-- Models `SchedulerService.cleanupExpiredWaitlistEntries`: ACTIVE/NOTIFIED
entries past `expiresAt` become EXPIRED; positions are not renumbered. -/
def cleanupExpiredWaitlistEntries (now : Int) (ws : List WaitlistEntry) :
    List WaitlistEntry :=
  ws.map (fun w =>
    if (w.status == .active || w.status == .notified) &&
       (match w.expiresAt with | some e => decide (e < now) | none => false)
    then markAsExpired w
    else w)

/-- One iteration of `processPendingNotifications`: a PENDING job with
`scheduledFor < now` is sent; failure goes through `markAsFailed`. -/
def processPendingNotification (now : Int) (sendOk : Bool) (n : Notification) :
    Notification :=
  if n.status == .pending &&
     (match n.scheduledFor with | some t => decide (t < now) | none => false)
  then if sendOk then markAsSent n now
       else markAsFailed n "Failed to send push notification" now
  else n

/-! ## The capacity invariant -/

/-- Number of CONFIRMED/ACTIVE reservations of a parking covering instant
`t` (each covers its half-open `[startTime, endTime)`). -/
def countOverlappingAt (bookings : List Booking) (pid : Nat) (t : Int) : Nat :=
  (bookings.filter (fun b =>
    b.parkingId == pid &&
    (b.status == .confirmed || b.status == .active) &&
    decide (b.startTime ≤ t) && decide (t < b.endTime))).length

/-- The capacity-1 reading of the invariant: no two CONFIRMED/ACTIVE
reservations of the parking have overlapping intervals. -/
def confirmedActiveOverlapFree (bookings : List Booking) (pid : Nat) : Prop :=
  List.Pairwise (fun a b =>
    a.parkingId = pid → b.parkingId = pid →
    (a.status = .confirmed ∨ a.status = .active) →
    (b.status = .confirmed ∨ b.status = .active) →
    overlaps a.startTime a.endTime b.startTime b.endTime = false) bookings

instance (bookings : List Booking) (pid : Nat) :
    Decidable (confirmedActiveOverlapFree bookings pid) := by
  unfold confirmedActiveOverlapFree
  infer_instance

/-! ## Concrete scenarios (all times in ms; 36000000 = 10:00 on day 0) -/

/-- A verified capacity-1 parking with the single space "s1". -/
def capOnePk : Parking :=
  { id := 1, totalSpaces := 1,
    parkingSpaces := [{ id := "s1", isAvailable := true }],
    isActive := true, isVerified := true, hourlyRate := 10, dailyRate := 100 }

/-- An ACTIVE reservation `[10:00, 11:00)` on space s1, checked in at 9:50. -/
def bookingActiveS1 : Booking :=
  { id := 1, userId := 5, parkingId := 1, spaceId := some "s1",
    startTime := 36000000, endTime := 39600000, status := .active,
    totalAmount := 10, paymentStatus := .pending, checkInTime := some 35400000 }

/-- A waitlist-converted CONFIRMED reservation `[11:00, 12:00)` — no space
assigned, exactly as `convertWaitlistToBooking` builds them. -/
def bookingConvertedTouch : Booking :=
  { id := 2, userId := 6, parkingId := 1, spaceId := none,
    startTime := 39600000, endTime := 43200000, status := .confirmed,
    totalAmount := 10, paymentStatus := .pending }

/-- A CONFIRMED reservation `[11:00, 12:00)` on space s1. -/
def bookingTouchS1 : Booking :=
  { id := 2, userId := 6, parkingId := 1, spaceId := some "s1",
    startTime := 39600000, endTime := 43200000, status := .confirmed,
    totalAmount := 10, paymentStatus := .pending }

/-- An ACTIVE reservation `[10:00, 12:00)` on space "1". -/
def bookingActiveWide : Booking :=
  { id := 3, userId := 6, parkingId := 1, spaceId := some "1",
    startTime := 36000000, endTime := 43200000, status := .active,
    totalAmount := 10, paymentStatus := .pending }

/-- A CONFIRMED reservation `[10:00, 11:00)` with no prior check-in. -/
def bookingToCheckIn : Booking :=
  { id := 1, userId := 2, parkingId := 3, spaceId := some "s1",
    startTime := 36000000, endTime := 39600000, status := .confirmed,
    totalAmount := 10, paymentStatus := .pending }

/-- A CONFIRMED reservation `[100h, 101h)` on s1 blocking window W1. -/
def blockerW1 : Booking :=
  { id := 1, userId := 9, parkingId := 1, spaceId := some "s1",
    startTime := 360000000, endTime := 363600000, status := .confirmed,
    totalAmount := 10, paymentStatus := .pending }

/-- A CONFIRMED reservation `[101h, 102h)` on s1 blocking window W2. -/
def blockerW2 : Booking :=
  { id := 2, userId := 9, parkingId := 1, spaceId := some "s1",
    startTime := 363600000, endTime := 367200000, status := .confirmed,
    totalAmount := 10, paymentStatus := .pending }

/-- Users 101, 102, 103 join the full parking in order: 101 and 103 want
W1 = `[100h, 101h)`, 102 wants W2 = `[101h, 102h)`. -/
def waitlistAfterJoins : Except String (List WaitlistEntry) := do
  let (ws1, _) ← joinWaitlist capOnePk [] [blockerW1, blockerW2] 1 101
    360000000 363600000 1 1000
  let (ws2, _) ← joinWaitlist capOnePk ws1 [blockerW1, blockerW2] 2 102
    363600000 367200000 1 2000
  let (ws3, _) ← joinWaitlist capOnePk ws2 [blockerW1, blockerW2] 3 103
    360000000 363600000 1 3000
  pure ws3

/-- After the three joins, `blockerW1` is cancelled (24h+ ahead) and the
waitlist-promotion tick runs: W1 is free, so 101 and 103 get NOTIFIED,
while 102 stays ACTIVE behind `blockerW2`. -/
def waitlistAfterPromotion : Except String SchedState :=
  waitlistAfterJoins.map (fun ws =>
    processWaitlist 5000
      { parkings := [capOnePk], rules := [], waitlists := ws,
        bookings := [(cancelBooking blockerW1 "r" 4000).2, blockerW2],
        notifications := [], nextId := 10 })

/-- The positions of the ACTIVE waitlist entries of parking 1. -/
def activePositions (ws : List WaitlistEntry) : List Nat :=
  (ws.filter (fun w => w.parkingId == 1 && w.status == .active)).map
    (fun w => w.position)

/-- A DAILY rule of user 5 at 09:00-10:00, next occurrence on day 0. -/
def dailyRule : RecurringBooking :=
  { id := 1, userId := 5, parkingId := 1, pattern := .daily,
    rstatus := .active, startHour := 9, startMinute := 0,
    endHour := 10, endMinute := 0, nextBookingDate := 0, basePrice := 10 }

/-- Scheduler state holding only `dailyRule` (due on day 0). -/
def overdueState : SchedState :=
  { parkings := [capOnePk], rules := [dailyRule], waitlists := [],
    bookings := [], notifications := [], nextId := 1 }

/-- Day 1, 10:00 — `dailyRule` is one day overdue and its 09:00 start has
already passed. -/
def overdueNow : Int := msPerDay + 10 * msPerHour

/-- The same rule due today (day 1) with the tick running at 08:00. -/
def dueTodayRule : RecurringBooking := { dailyRule with nextBookingDate := 1 }

def dueTodayState : SchedState :=
  { overdueState with rules := [dueTodayRule] }

def dueTodayNow : Int := msPerDay + 8 * msPerHour

/-- A CONFIRMED reservation occupying day 1, 09:00-10:00 — a conflict for
`dueTodayRule`. -/
def conflictForRule : Booking :=
  { id := 1, userId := 9, parkingId := 1, spaceId := some "s1",
    startTime := msPerDay + 9 * msPerHour, endTime := msPerDay + 10 * msPerHour,
    status := .confirmed, totalAmount := 10, paymentStatus := .pending }

def conflictedState : SchedState :=
  { dueTodayState with bookings := [conflictForRule], nextId := 2 }

/-- A pending notification job that has never failed, with the default
maxRetries of 3. -/
def freshJob : Notification :=
  { id := 1, userId := 7, status := .pending, retryCount := 0, maxRetries := 3 }

/-- A CONFIRMED reservation of amount 100 starting 30 hours after t = 0. -/
def bookingStart30h : Booking :=
  { id := 1, userId := 2, parkingId := 3, spaceId := some "s1",
    startTime := 30 * msPerHour, endTime := 31 * msPerHour, status := .confirmed,
    totalAmount := 100, paymentStatus := .pending }

/-- The same reservation starting 10 hours after t = 0. -/
def bookingStart10h : Booking :=
  { bookingStart30h with startTime := 10 * msPerHour, endTime := 11 * msPerHour }

/-- The same reservation starting 1 hour after t = 0. -/
def bookingStart1h : Booking :=
  { bookingStart30h with startTime := 1 * msPerHour, endTime := 2 * msPerHour }

/-- Cancellability puts `now` strictly more than 2 hours before the start. -/
theorem canBeCancelled_two_hours {b : Booking} {now : Int}
    (h : canBeCancelled b now = true) : (2 : Rat) < hoursUntilStart b now := by
  have hall : (b.status = .pending ∨ b.status = .confirmed) ∧
      now < b.startTime - 2 * msPerHour := by
    simpa [canBeCancelled] using h
  have hlt : now < b.startTime - 2 * msPerHour := hall.2
  have hql : (2 * msPerHour : Int) < b.startTime - now := by omega
  have hq : ((2 * msPerHour : Int) : Rat) < ((b.startTime - now : Int) : Rat) := by
    exact_mod_cast hql
  rw [hoursUntilStart, lt_div_iff₀ (by norm_num [msPerHour])]
  calc (2 : Rat) * ((msPerHour : Int) : Rat)
      = ((2 * msPerHour : Int) : Rat) := by push_cast; ring
    _ < _ := hq

/-- A WEEKLY rule (no custom interval) whose next occurrence is 2024-01-01. -/
def weeklyRule2024 : RecurringBooking :=
  { id := 2, userId := 5, parkingId := 1, pattern := .weekly,
    rstatus := .active, startHour := 9, startMinute := 0,
    endHour := 10, endMinute := 0,
    nextBookingDate := daysFromCivil 2024 1 1, basePrice := 10 }

/-- What the day-by-day advance loops guarantee: the returned date fails the
rejection condition and lies strictly after the starting date. -/
theorem doWhileAdvance_spec (cond : Int → Bool) :
    ∀ (fuel : Nat) (d dd : Int), doWhileAdvance cond fuel d = some dd →
      cond dd = false ∧ d < dd := by
  intro fuel
  induction fuel with
  | zero => intro d dd h; simp [doWhileAdvance] at h
  | succ n ih =>
    intro d dd h
    simp only [doWhileAdvance] at h
    by_cases hc : cond (d + 1)
    · rw [if_pos hc] at h
      obtain ⟨h1, h2⟩ := ih (d + 1) dd h
      exact ⟨h1, by omega⟩
    · rw [if_neg hc] at h
      obtain rfl : d + 1 = dd := by simpa using h
      exact ⟨by simpa using hc, by omega⟩

/-- Weekdays always land in 0..6. -/
theorem weekday_range (d : Int) : 0 ≤ weekday d ∧ weekday d < 7 := by
  unfold weekday
  constructor
  · exact Int.emod_nonneg _ (by norm_num)
  · exact Int.emod_lt_of_pos _ (by norm_num)

/-- Renumbering never changes an entry's id. -/
theorem applyPositions_id (a : List WaitlistEntry) (w : WaitlistEntry) :
    (applyPositions a w).id = w.id := by
  unfold applyPositions; split <;> rfl

/-- Renumbering never changes an entry's parking. -/
theorem applyPositions_parkingId (a : List WaitlistEntry) (w : WaitlistEntry) :
    (applyPositions a w).parkingId = w.parkingId := by
  unfold applyPositions; split <;> rfl

/-- Renumbering never changes an entry's status. -/
theorem applyPositions_status (a : List WaitlistEntry) (w : WaitlistEntry) :
    (applyPositions a w).status = w.status := by
  unfold applyPositions; split <;> rfl

/-- In a list with pairwise-distinct keys, searching for the key of the i-th
element finds index i (offset by the start index). -/
theorem findIdx?_key_get {α : Type} (key : α → Nat) :
    ∀ (l : List α) (i : Nat) (hi : i < l.length) (s : Nat),
      (l.map key).Nodup →
      l.findIdx? (fun a => key a == key (l.get ⟨i, hi⟩)) s = some (s + i) := by
  intro l
  induction l with
  | nil => intro i hi; simp at hi
  | cons x xs ih =>
    intro i hi s hnd
    simp only [List.map_cons, List.nodup_cons] at hnd
    cases i with
    | zero =>
      simp [List.findIdx?_cons]
    | succ i =>
      have hi' : i < xs.length := by simpa using hi
      have hget : (x :: xs).get ⟨i + 1, hi⟩ = xs.get ⟨i, hi'⟩ := rfl
      rw [hget, List.findIdx?_cons]
      have hmem : key (xs.get ⟨i, hi'⟩) ∈ xs.map key :=
        List.mem_map_of_mem key (List.get_mem xs i hi')
      have hne : ¬ (key x == key (xs.get ⟨i, hi'⟩)) = true := by
        simp only [beq_iff_eq]
        intro heq
        exact hnd.1 (heq ▸ hmem)
      rw [if_neg hne]
      rw [ih i hi' (s + 1) hnd.2]
      congr 1
      omega

/-- In a list with pairwise-distinct keys, searching for a member's key
finds exactly that member. -/
theorem find?_key_of_nodup {α : Type} (key : α → Nat) :
    ∀ (l : List α) (x : α), x ∈ l → (l.map key).Nodup →
      l.find? (fun a => key a == key x) = some x := by
  intro l
  induction l with
  | nil => intro x hx; simp at hx
  | cons y ys ih =>
    intro x hx hnd
    simp only [List.map_cons, List.nodup_cons] at hnd
    rcases List.mem_cons.mp hx with rfl | hmem
    · simp [List.find?_cons]
    · have hfalse : (key y == key x) = false := by
        simp only [beq_eq_false_iff_ne, ne_eq]
        intro heq
        exact hnd.1 (heq ▸ List.mem_map_of_mem key hmem)
      rw [List.find?_cons, hfalse]
      exact ih x hmem hnd.2

/-- Inserting by `createdAt` is a permutation of consing. -/
theorem insertByCreatedAt_perm (w : WaitlistEntry) (l : List WaitlistEntry) :
    (insertByCreatedAt w l).Perm (w :: l) := by
  induction l with
  | nil => exact List.Perm.refl _
  | cons x xs ih =>
    unfold insertByCreatedAt
    split
    · exact List.Perm.refl _
    · exact (List.Perm.cons x ih).trans (List.Perm.swap w x xs)

/-- The `ORDER BY createdAt` sort is a permutation of its input. -/
theorem orderByCreatedAt_perm (l : List WaitlistEntry) :
    (orderByCreatedAt l).Perm l := by
  induction l with
  | nil => exact List.Perm.refl _
  | cons x xs ih =>
    exact (insertByCreatedAt_perm x _).trans (List.Perm.cons x ih)

/-- Two ACTIVE entries of parking 1 with stale positions: id 1 joined at
t = 200 (position 5), id 2 joined at t = 100 (position 9). -/
def wsPair : List WaitlistEntry :=
  [{ id := 1, userId := 101, parkingId := 1, desiredStartTime := 360000000,
     desiredEndTime := 363600000, requiredSpaces := 1, position := 5,
     status := .active, createdAt := 200 },
   { id := 2, userId := 102, parkingId := 1, desiredStartTime := 360000000,
     desiredEndTime := 363600000, requiredSpaces := 1, position := 9,
     status := .active, createdAt := 100 }]

/-- A recurrence tick over a single stored rule is that rule's processing
step. -/
theorem processRecurringBookings_singleton (now : Int) (ps : List Parking)
    (wl : List WaitlistEntry) (bk : List Booking) (nt : List (Nat × String))
    (ni : Nat) (r : RecurringBooking) :
    processRecurringBookings now ⟨ps, [r], wl, bk, nt, ni⟩ =
      processOneRule now ⟨ps, [], wl, bk, nt, ni⟩ r := by
  unfold processRecurringBookings
  simp only [List.foldlM_cons, List.foldlM_nil]
  cases processOneRule now ⟨ps, [], wl, bk, nt, ni⟩ r <;> simp

/-- The booking `processRecurringBookings` builds for a due rule (no space
is assigned; status CONFIRMED; payment PENDING; amount the rule's base
price). -/
def materializedBooking (r : RecurringBooking) (ni : Nat) : Booking :=
  { id := ni, userId := r.userId, parkingId := r.parkingId, spaceId := none,
    startTime := ruleStartMs r, endTime := ruleEndMs r, status := .confirmed,
    totalAmount := r.basePrice, paymentStatus := .pending }

/-! ## Claim theorems -/

/-- C1: the capacity invariant is NOT preserved by every capacity-allocating
operation. From a valid capacity-1 state — an ACTIVE reservation
`[10:00,11:00)` on the only space and a waitlist-converted CONFIRMED
reservation `[11:00,12:00)` (touching, hence overlap-free) — `extendBooking`
to 12:00 succeeds at 9:55 (its availability re-check looks at start times in
the inclusive range `[11:00,12:00]` and then frees every space not named by
a conflict, and the converted reservation names none), leaving two
CONFIRMED/ACTIVE reservations that both cover instant 11:00 on a resource of
capacity 1. -/
theorem c1_extension_violates_capacity :
    confirmedActiveOverlapFree [bookingActiveS1, bookingConvertedTouch] capOnePk.id
    ∧ capOnePk.totalSpaces = 1
    ∧ (extendBooking capOnePk [bookingActiveS1, bookingConvertedTouch]
        1 5 43200000 35700000).1 = true
    ∧ countOverlappingAt
        (extendBooking capOnePk [bookingActiveS1, bookingConvertedTouch]
          1 5 43200000 35700000).2 capOnePk.id 39600000 = 2
    ∧ ¬ confirmedActiveOverlapFree
        (extendBooking capOnePk [bookingActiveS1, bookingConvertedTouch]
          1 5 43200000 35700000).2 capOnePk.id := by
  refine ⟨by decide, by decide, by decide, by decide, by decide⟩

/-- C2: the availability check does NOT use the half-open overlap test. The
claimed test `a.start < b.end && b.start < a.end` says that the touching
intervals `[10:00,11:00)` and `[11:00,12:00)` do not conflict, yet
`checkAvailability` (whose conflict query is `startTime BETWEEN start AND
end`, inclusive) counts the CONFIRMED reservation starting exactly at 11:00
as a conflict for the request `[10:00,11:00)` and reports the capacity-1
parking unavailable; moreover `checkParkingAvailability` (part_016) ignores
an ACTIVE reservation that genuinely overlaps the request, because its
status filter compares against 'confirmed' and the non-existent status
string 'checked_in'. -/
theorem c2_availability_not_overlap_test :
    overlaps 36000000 39600000 39600000 43200000 = false
    ∧ bookingTouchS1 ∈ betweenConflicts [bookingTouchS1] capOnePk.id 36000000 39600000
    ∧ (checkAvailability capOnePk [bookingTouchS1] 36000000 39600000).isAvailable = false
    ∧ overlaps bookingActiveWide.startTime bookingActiveWide.endTime
        36000000 39600000 = true
    ∧ bookingActiveWide.status = .active
    ∧ (checkParkingAvailability capOnePk [bookingActiveWide] 36000000 39600000 1).1
        = true := by
  refine ⟨by decide, by decide, by decide, by decide, by decide, by decide⟩

/-- C8: check-in does NOT succeed on the whole claimed window
`[start-15min, end]`. At 10:30, inside the window of the CONFIRMED
reservation `[10:00,11:00)`, `canCheckIn` holds, yet `checkInBooking` fails
and leaves the reservation unchanged: the save runs the
`validateBookingTimes` `@BeforeUpdate` hook, which throws `Start time cannot
be in the past` once the start has passed. At 10:00 sharp (start not yet
past) the same check-in succeeds with CONFIRMED → ACTIVE and the check-in
time recorded. -/
theorem c8_checkin_window_not_honored :
    canCheckIn bookingToCheckIn 37800000 = true
    ∧ checkInBooking bookingToCheckIn 37800000 = (false, bookingToCheckIn)
    ∧ validateError { bookingToCheckIn with
        checkInTime := some 37800000, status := .active } 37800000
        = some "Start time cannot be in the past"
    ∧ (checkInBooking bookingToCheckIn 36000000).1 = true
    ∧ (checkInBooking bookingToCheckIn 36000000).2.status = .active
    ∧ (checkInBooking bookingToCheckIn 36000000).2.checkInTime = some 36000000 := by
  refine ⟨by decide, by decide, by decide, by decide, by decide, by decide⟩

/-- C4 counterexample: the first failure of a fresh job (retryCount 0,
maxRetries 3) sets `nextRetryAt` to now + 1 minute — `markAsFailed` computes
`5 ^ (retryCount - 1)` minutes from the post-increment count — not the
claimed now + 5 minutes. -/
theorem c4_first_backoff_is_one_minute :
    (markAsFailed freshJob "send failed" 0).retryCount = 1
    ∧ (markAsFailed freshJob "send failed" 0).nextRetryAt = some 60000
    ∧ some (60000 : Int) ≠ some (5 * msPerMinute) := by
  refine ⟨by decide, by decide, by decide⟩

/-- C5 counterexample: positions of ACTIVE entries are NOT kept contiguous
at 1..N by every membership-changing operation. After 101, 102, 103 join at
positions 1, 2, 3, the promotion tick notifies 101 and 103 (their window
became free) without renumbering, leaving 102 as the only ACTIVE entry of
the resource — at position 2, not 1. -/
theorem c5_promotion_breaks_contiguity :
    waitlistAfterJoins.toOption.map activePositions = some [1, 2, 3]
    ∧ waitlistAfterPromotion.toOption.map (fun st => activePositions st.waitlists)
        = some [2]
    ∧ some [2] ≠ (some [1] : Option (List Nat)) := by
  refine ⟨by decide, by decide, by decide⟩

/-- C7 counterexample: when materializing `dueTodayRule` fails for lack of
capacity (a CONFIRMED reservation occupies day 1, 09:00-10:00), the tick
appends the failure-history entry and advances the next occurrence to day 2,
but emits NO notification at all — the claimed failure notification to the
user does not exist. -/
theorem c7_no_failure_notification :
    (processRecurringBookings dueTodayNow conflictedState).map
        (fun st => st.notifications) = some []
    ∧ (processRecurringBookings dueTodayNow conflictedState).map
        (fun st => st.rules.map (fun r =>
          (r.nextBookingDate, r.failureHistory.map (fun f => f.reason))))
        = some [(2, ["Time slot not available"])]
    ∧ (some [] : Option (List (Nat × String)))
        ≠ some [(dailyRule.userId, "Recurring Booking Failed")] := by
  refine ⟨by decide, by decide, by decide⟩

/-- C3: cancellation succeeds only from PENDING or CONFIRMED strictly before
`start - 2h`; on success the reservation becomes CANCELLED carrying a refund
record whose amount is the full total when at least 24 hours remain and half
the total when fewer than 24 (but more than 2) remain; an illegal
cancellation leaves the reservation unchanged with a zero computed refund.
Concretely: a start 30 hours out refunds 100 of 100, 10 hours out refunds
50, and 1 hour out refuses to cancel with a zero refund. -/
theorem c3_cancellation_policy (b : Booking) (reason : String) (now : Int) :
    ((cancelBooking b reason now).1 = true →
      (b.status = .pending ∨ b.status = .confirmed) ∧
      now < b.startTime - 2 * msPerHour)
    ∧ (canBeCancelled b now = false →
        cancelBooking b reason now = (false, b) ∧ calculateRefundAmount b now = 0)
    ∧ ((cancelBooking b reason now).1 = true →
        (cancelBooking b reason now).2 =
          { b with status := .cancelled,
                   cancellationReason := some
                     { reason := reason, cancelledBy := "user",
                       refundAmount := calculateRefundAmount b now,
                       cancelledAt := now } })
    ∧ (canBeCancelled b now = true → 24 ≤ hoursUntilStart b now →
        calculateRefundAmount b now = b.totalAmount)
    ∧ (canBeCancelled b now = true → hoursUntilStart b now < 24 →
        calculateRefundAmount b now = b.totalAmount * (1 / 2))
    ∧ calculateRefundAmount bookingStart30h 0 = 100
    ∧ (cancelBooking bookingStart30h "trip cancelled" 0).1 = true
    ∧ calculateRefundAmount bookingStart10h 0 = 50
    ∧ calculateRefundAmount bookingStart1h 0 = 0
    ∧ cancelBooking bookingStart1h "too late" 0 = (false, bookingStart1h) := by
  refine ⟨?_, ?_, ?_, ?_, ?_, ?_, ?_, ?_, ?_, ?_⟩
  · intro hs
    by_cases hc : canBeCancelled b now
    · simpa [canBeCancelled] using hc
    · simp [cancelBooking, hc] at hs
  · intro hc
    constructor
    · simp [cancelBooking, hc]
    · simp [calculateRefundAmount, hc]
  · intro hs
    by_cases hc : canBeCancelled b now
    · by_cases hv : validateBookingFine
        { b with status := .cancelled,
                 cancellationReason := some
                   { reason := reason, cancelledBy := "user",
                     refundAmount := calculateRefundAmount b now,
                     cancelledAt := now } } now
      · simp [cancelBooking, hc, hv]
      · simp [cancelBooking, hc, hv] at hs
    · simp [cancelBooking, hc] at hs
  · intro hc h24
    simp [calculateRefundAmount, hc, h24]
  · intro hc h24
    have h2 : (2 : Rat) ≤ hoursUntilStart b now :=
      le_of_lt (canBeCancelled_two_hours hc)
    simp [calculateRefundAmount, hc, h2, not_le.mpr h24]
  · norm_num [calculateRefundAmount, canBeCancelled, hoursUntilStart,
      bookingStart30h, msPerHour]
  · norm_num [cancelBooking, canBeCancelled, bookingStart30h, msPerHour,
      validateBookingFine, validateError]
  · norm_num [calculateRefundAmount, canBeCancelled, hoursUntilStart,
      bookingStart10h, bookingStart30h, msPerHour]
  · norm_num [calculateRefundAmount, canBeCancelled, hoursUntilStart,
      bookingStart1h, bookingStart30h, msPerHour]
  · norm_num [cancelBooking, canBeCancelled, bookingStart1h, bookingStart30h,
      msPerHour]

/-- C3 witness: the policy theorem applied to the concrete 30-hours-out and
1-hour-out reservations at t = 0. -/
theorem c3_cancellation_policy_witness :
    canBeCancelled bookingStart30h 0 = true
    ∧ calculateRefundAmount bookingStart30h 0 = bookingStart30h.totalAmount
    ∧ canBeCancelled bookingStart1h 0 = false
    ∧ cancelBooking bookingStart1h "x" 0 = (false, bookingStart1h)
    ∧ calculateRefundAmount bookingStart1h 0 = 0 := by
  have h30 := c3_cancellation_policy bookingStart30h "x" 0
  have h1 := c3_cancellation_policy bookingStart1h "x" 0
  have h24 : (24 : Rat) ≤ hoursUntilStart bookingStart30h 0 := by
    norm_num [hoursUntilStart, bookingStart30h, msPerHour]
  exact ⟨by decide, h30.2.2.2.1 (by decide) h24, by decide,
    (h1.2.1 (by decide)).1, (h1.2.1 (by decide)).2⟩

/-- C4 amended: a failed send sets FAILED, records the reason and increments
`retryCount`; while the incremented count stays below `maxRetries` (and the
job has no expiry), `nextRetryAt` is now + `5^(retryCount-1)` minutes — so
for `maxRetries = 3` the successive deltas are 1 minute and 5 minutes, and
the third failure leaves `nextRetryAt` untouched with the job terminally
FAILED (`canRetry` is false at every instant). -/
theorem c4_backoff_amended (n : Notification) (r1 r2 r3 : String)
    (t1 t2 t3 : Int) (hm : n.maxRetries = 3) (hr : n.retryCount = 0)
    (he : n.expiresAt = none) :
    (markAsFailed n r1 t1).status = .failed
    ∧ (markAsFailed n r1 t1).retryCount = 1
    ∧ (markAsFailed n r1 t1).failureReason = some r1
    ∧ (markAsFailed n r1 t1).nextRetryAt = some (t1 + 1 * msPerMinute)
    ∧ (markAsFailed (markAsFailed n r1 t1) r2 t2).retryCount = 2
    ∧ (markAsFailed (markAsFailed n r1 t1) r2 t2).nextRetryAt
        = some (t2 + 5 * msPerMinute)
    ∧ (markAsFailed (markAsFailed (markAsFailed n r1 t1) r2 t2) r3 t3).retryCount = 3
    ∧ (markAsFailed (markAsFailed (markAsFailed n r1 t1) r2 t2) r3 t3).nextRetryAt
        = some (t2 + 5 * msPerMinute)
    ∧ ∀ t : Int, canRetry
        (markAsFailed (markAsFailed (markAsFailed n r1 t1) r2 t2) r3 t3) t = false := by
  simp [markAsFailed, canRetry, notifIsExpired, hm, hr, he, msPerMinute]

/-- C4 witness: the amended backoff theorem applied to `freshJob` failing at
t = 0, 1000 and 2000. -/
theorem c4_backoff_amended_witness :
    (markAsFailed freshJob "a" 0).nextRetryAt = some (0 + 1 * msPerMinute)
    ∧ (markAsFailed (markAsFailed freshJob "a" 0) "b" 1000).nextRetryAt
        = some (1000 + 5 * msPerMinute)
    ∧ (markAsFailed (markAsFailed (markAsFailed freshJob "a" 0) "b" 1000)
        "c" 2000).retryCount = 3
    ∧ canRetry (markAsFailed (markAsFailed (markAsFailed freshJob "a" 0)
        "b" 1000) "c" 2000) 99999 = false := by
  have h := c4_backoff_amended freshJob "a" "b" "c" 0 1000 2000
    (by decide) (by decide) (by decide)
  exact ⟨h.2.2.2.1, h.2.2.2.2.2.1, h.2.2.2.2.2.2.1,
    h.2.2.2.2.2.2.2.2 99999⟩

/-- C6: `calculateNextBookingDate` advances DAILY by `interval` days (one
day when no interval is set), WEEKLY by `7 * interval` days, MONTHLY by
`interval` months keeping the day-of-month (stated where the target month
exists within the same year), and WEEKDAYS / WEEKENDS / CUSTOM day-by-day
until the weekday passes the pattern's filter — in particular a WEEKDAYS
rule sitting on a Friday jumps 3 days to the following Monday, and the
WEEKLY rule at 2024-01-01 yields 2024-01-08 and then 2024-01-15. -/
theorem c6_next_occurrence (r : RecurringBooking) :
    (∀ i : Int, r.pattern = .daily → r.customInterval = some i → 1 ≤ i →
      calculateNextBookingDate r = some (r.nextBookingDate + i))
    ∧ (∀ i : Int, r.pattern = .weekly → r.customInterval = some i → 1 ≤ i →
      calculateNextBookingDate r = some (r.nextBookingDate + 7 * i))
    ∧ (r.pattern = .daily → r.customInterval = none →
      calculateNextBookingDate r = some (r.nextBookingDate + 1))
    ∧ (r.pattern = .weekly → r.customInterval = none →
      calculateNextBookingDate r = some (r.nextBookingDate + 7))
    ∧ (∀ y m d i : Int, r.pattern = .monthly →
      civilFromDays r.nextBookingDate = (y, m, d) →
      r.customInterval = some i → 1 ≤ i → 1 ≤ m → m + i ≤ 12 →
      calculateNextBookingDate r = some (daysFromCivil y (m + i) d))
    ∧ (r.pattern = .weekdays → weekday r.nextBookingDate = 5 →
      calculateNextBookingDate r = some (r.nextBookingDate + 3)
        ∧ weekday (r.nextBookingDate + 3) = 1)
    ∧ (∀ dd : Int, r.pattern = .weekdays →
      calculateNextBookingDate r = some dd →
      1 ≤ weekday dd ∧ weekday dd ≤ 5 ∧ r.nextBookingDate < dd)
    ∧ (∀ dd : Int, r.pattern = .weekends →
      calculateNextBookingDate r = some dd →
      (weekday dd = 0 ∨ weekday dd = 6) ∧ r.nextBookingDate < dd)
    ∧ (∀ (dd : Int) (l : List Int), r.pattern = .custom →
      r.customDaysOfWeek = some l →
      calculateNextBookingDate r = some dd →
      l.contains (weekday dd) = true ∧ r.nextBookingDate < dd)
    ∧ calculateNextBookingDate weeklyRule2024 = some (daysFromCivil 2024 1 8)
    ∧ calculateNextBookingDate
        { weeklyRule2024 with nextBookingDate := daysFromCivil 2024 1 8 }
        = some (daysFromCivil 2024 1 15) := by
  refine ⟨?_, ?_, ?_, ?_, ?_, ?_, ?_, ?_, ?_, ?_, ?_⟩
  · intro i hp hi hpos
    have : ¬ (i = 0) := by omega
    simp [calculateNextBookingDate, hp, hi, jsIntervalOrOne, this]
  · intro i hp hi hpos
    have : ¬ (i = 0) := by omega
    simp [calculateNextBookingDate, hp, hi, jsIntervalOrOne, this]
  · intro hp hi
    simp [calculateNextBookingDate, hp, hi, jsIntervalOrOne]
  · intro hp hi
    simp [calculateNextBookingDate, hp, hi, jsIntervalOrOne]
  · intro y m d i hp hciv hi hpos hm hmi
    have hne : ¬ (i = 0) := by omega
    simp only [calculateNextBookingDate, hp, jsAddMonths, hciv, jsIntervalOrOne,
      hi, beq_iff_eq, hne, if_false, Option.some.injEq]
    have hdiv : (y * 12 + (m - 1) + i) / 12 = y := by omega
    have hmod : (y * 12 + (m - 1) + i) % 12 + 1 = m + i := by omega
    rw [hdiv, hmod]
  · intro hp hf
    have h1 : weekday (r.nextBookingDate + 1) = 6 := by unfold weekday at *; omega
    have h2 : weekday (r.nextBookingDate + 1 + 1) = 0 := by
      unfold weekday at *; omega
    have h3 : weekday (r.nextBookingDate + 1 + 1 + 1) = 1 := by
      unfold weekday at *; omega
    have h3' : weekday (r.nextBookingDate + 3) = 1 := by unfold weekday at *; omega
    have e3 : r.nextBookingDate + 1 + 1 + 1 = r.nextBookingDate + 3 := by omega
    refine ⟨?_, h3'⟩
    simp [calculateNextBookingDate, hp, doWhileAdvance, h1, h2, h3, e3, h3']
  · intro dd hp h
    simp only [calculateNextBookingDate, hp] at h
    obtain ⟨hcond, hlt⟩ := doWhileAdvance_spec _ _ _ _ h
    simp only [Bool.or_eq_false_iff, beq_eq_false_iff_ne] at hcond
    have hr := weekday_range dd
    exact ⟨by omega, by omega, hlt⟩
  · intro dd hp h
    simp only [calculateNextBookingDate, hp] at h
    obtain ⟨hcond, hlt⟩ := doWhileAdvance_spec _ _ _ _ h
    simp only [Bool.and_eq_false_iff] at hcond
    refine ⟨?_, hlt⟩
    rcases hcond with h0 | h6
    · left; simpa using h0
    · right; simpa using h6
  · intro dd l hp hl h
    simp only [calculateNextBookingDate, hp, hl] at h
    obtain ⟨hcond, hlt⟩ := doWhileAdvance_spec _ _ _ _ h
    exact ⟨by simpa using hcond, hlt⟩
  · decide
  · decide

/-- A WEEKDAYS rule sitting on Friday 2024-01-05. -/
def fridayWeekdaysRule : RecurringBooking :=
  { dailyRule with pattern := .weekdays, nextBookingDate := daysFromCivil 2024 1 5 }

/-- A MONTHLY rule (interval 1) sitting on 2024-01-15. -/
def monthlyRule15 : RecurringBooking :=
  { dailyRule with
    pattern := .monthly, customInterval := some 1,
    nextBookingDate := daysFromCivil 2024 1 15 }

/-- C6 witness: the pattern theorem applied to a DAILY rule without
interval, the WEEKDAYS rule on Friday 2024-01-05 (next occurrence Monday
2024-01-08) and the MONTHLY rule on 2024-01-15 (next 2024-02-15). -/
theorem c6_next_occurrence_witness :
    calculateNextBookingDate dailyRule = some (dailyRule.nextBookingDate + 1)
    ∧ calculateNextBookingDate fridayWeekdaysRule
        = some (fridayWeekdaysRule.nextBookingDate + 3)
    ∧ weekday (fridayWeekdaysRule.nextBookingDate + 3) = 1
    ∧ calculateNextBookingDate monthlyRule15 = some (daysFromCivil 2024 2 15) := by
  have hd := c6_next_occurrence dailyRule
  have hf := c6_next_occurrence fridayWeekdaysRule
  have hm := c6_next_occurrence monthlyRule15
  have hfr := hf.2.2.2.2.2.1 rfl (by decide)
  have hmo := hm.2.2.2.2.1 2024 1 15 1 rfl (by decide) rfl
    (by decide) (by decide) (by decide)
  exact ⟨hd.2.2.1 rfl rfl, hfr.1, hfr.2, by simpa using hmo⟩

/-- C7 amended: when materializing a due rule fails for lack of capacity,
the stored rule gains the failure-history entry and its next occurrence
advances to the following pattern date, but NO failure notification is
emitted — the tick's notifications and bookings are exactly the ones it
started with (only a successful materialization notifies the user). -/
theorem c7_failure_advances_without_notification (st : SchedState)
    (r : RecurringBooking) (parking : Parking) (now nd : Int)
    (hrules : st.rules = [r]) (hpark : st.parkings = [parking])
    (hpid : parking.id = r.parkingId)
    (hdue : isDueRule r now = true)
    (hconf : 0 < conflictCount st.bookings r.parkingId (ruleStartMs r) (ruleEndMs r))
    (hnext : calculateNextBookingDate r = some nd) :
    processRecurringBookings now st = some
      { st with rules := [{ r with
          failureHistory := r.failureHistory ++
            [failureEntry now "Time slot not available"],
          nextBookingDate := nd }] }
    ∧ (processRecurringBookings now st).map (fun s => s.notifications)
        = some st.notifications
    ∧ (processRecurringBookings now st).map (fun s => s.bookings)
        = some st.bookings := by
  have hmain : processRecurringBookings now st = some
      { st with rules := [{ r with
          failureHistory := r.failureHistory ++
            [failureEntry now "Time slot not available"],
          nextBookingDate := nd }] } := by
    obtain ⟨ps, rs, wl, bk, nt, ni⟩ := st
    simp only at hrules hpark hconf
    subst hrules hpark
    rw [processRecurringBookings_singleton]
    unfold processOneRule
    rw [hdue]
    simp only [Bool.not_true, Bool.false_eq_true, if_false]
    have hfind : (List.find? (fun p => p.id == r.parkingId) [parking])
        = some parking := by
      simp [List.find?, hpid]
    rw [hfind]
    simp only
    rw [if_pos hconf, hnext]
    simp
  refine ⟨hmain, ?_, ?_⟩ <;> rw [hmain] <;> simp

/-- C7 witness: the amended failure-path theorem applied to the concrete
conflicted scenario (rule due on day 1, window already booked). -/
theorem c7_failure_advances_without_notification_witness :
    (processRecurringBookings dueTodayNow conflictedState).map
        (fun s => s.notifications) = some conflictedState.notifications
    ∧ (processRecurringBookings dueTodayNow conflictedState).map
        (fun s => s.bookings) = some conflictedState.bookings := by
  have h := c7_failure_advances_without_notification conflictedState
    dueTodayRule capOnePk dueTodayNow 2 rfl rfl (by decide) (by decide)
    (by decide) (by decide)
  exact ⟨h.2.1, h.2.2⟩

/-- C9 amended: the recurrence tick run twice with no elapsed time creates
exactly one reservation for a due rule PROVIDED the materialized start time
has not yet passed and the advanced date is not itself already due: the
first run stores exactly one CONFIRMED booking, advances the rule, and the
second run's due check excludes the advanced rule, changing nothing. (For
an overdue rule whose start time has passed, the insert validation rejects
the booking and the date is never advanced — the tick creates nothing.) -/
theorem c9_tick_idempotent_when_start_future (st : SchedState)
    (r : RecurringBooking) (parking : Parking) (now nd : Int)
    (hrules : st.rules = [r]) (hpark : st.parkings = [parking])
    (hpid : parking.id = r.parkingId)
    (hdue : isDueRule r now = true)
    (hconf : conflictCount st.bookings r.parkingId (ruleStartMs r) (ruleEndMs r) = 0)
    (hfuture : now ≤ ruleStartMs r)
    (hinterval : ruleStartMs r < ruleEndMs r)
    (hnext : calculateNextBookingDate r = some nd)
    (hnotdue : now ≤ nd * msPerDay) :
    (processRecurringBookings now st).bind (processRecurringBookings now)
      = some { st with
          rules := [{ r with
            bookingHistory := r.bookingHistory ++
              [{ bookingId := st.nextId, date := r.nextBookingDate,
                 entryStatus := "created" }],
            completedOccurrences := r.completedOccurrences + 1,
            nextBookingDate := nd }],
          bookings := st.bookings ++ [materializedBooking r st.nextId],
          notifications := st.notifications ++
            [(r.userId, "Recurring Booking Created")],
          nextId := st.nextId + 1 } := by
  obtain ⟨ps, rs, wl, bk, nt, ni⟩ := st
  simp only at hrules hpark hconf ⊢
  subst hrules hpark
  have hfind : (List.find? (fun p => p.id == r.parkingId) [parking])
      = some parking := by
    simp [List.find?, hpid]
  have hval : validateError (materializedBooking r ni) now = none := by
    unfold validateError materializedBooking
    simp only
    rw [if_neg (by omega), if_neg (by omega)]
  have h1 : processRecurringBookings now ⟨[parking], [r], wl, bk, nt, ni⟩
      = some ⟨[parking],
          [{ r with
             bookingHistory := r.bookingHistory ++
               [{ bookingId := ni, date := r.nextBookingDate,
                  entryStatus := "created" }],
             completedOccurrences := r.completedOccurrences + 1,
             nextBookingDate := nd }],
          wl, bk ++ [materializedBooking r ni],
          nt ++ [(r.userId, "Recurring Booking Created")], ni + 1⟩ := by
    rw [processRecurringBookings_singleton]
    unfold processOneRule
    rw [hdue]
    simp only [Bool.not_true, Bool.false_eq_true, if_false]
    rw [hfind]
    simp only
    rw [if_neg (by omega :
      ¬ (0 < conflictCount bk r.parkingId (ruleStartMs r) (ruleEndMs r)))]
    have hval2 : validateError
        { id := ni, userId := r.userId, parkingId := r.parkingId,
          spaceId := none, startTime := ruleStartMs r, endTime := ruleEndMs r,
          status := .confirmed, totalAmount := r.basePrice,
          paymentStatus := .pending } now = none := hval
    rw [hval2, hnext]
    simp [materializedBooking]
  rw [h1]
  rw [Option.some_bind]
  rw [processRecurringBookings_singleton]
  unfold processOneRule
  have hnotdue2 : isDueRule { r with
      bookingHistory := r.bookingHistory ++
        [{ bookingId := ni, date := r.nextBookingDate, entryStatus := "created" }],
      completedOccurrences := r.completedOccurrences + 1,
      nextBookingDate := nd } now = false := by
    unfold isDueRule
    simp [not_lt.mpr hnotdue]
  rw [hnotdue2]
  rfl

/-- C9 witness: the idempotency theorem applied to the concrete
`dueTodayState` (rule due on day 1 at 09:00, tick at 08:00). -/
theorem c9_tick_idempotent_witness :
    ((processRecurringBookings dueTodayNow dueTodayState).bind
        (processRecurringBookings dueTodayNow)).map (fun s => s.bookings)
      = some [materializedBooking dueTodayRule 1] := by
  have h := c9_tick_idempotent_when_start_future dueTodayState dueTodayRule
    capOnePk dueTodayNow 2 rfl rfl (by decide) (by decide) (by decide)
    (by decide) (by decide) (by decide) (by decide)
  rw [h]
  rfl

/-- A NOTIFIED waitlist entry of user 101 for `[100h, 101h)` on parking 1. -/
def notifiedEntry : WaitlistEntry :=
  { id := 1, userId := 101, parkingId := 1, desiredStartTime := 360000000,
    desiredEndTime := 363600000, requiredSpaces := 1, position := 1,
    status := .notified, createdAt := 0 }

/-- C10: every successful conversion of a NOTIFIED waitlist entry stores a
CONFIRMED reservation with NO assigned space (`spaceId` is left unset),
whereas every reservation `createBooking` creates carries a specific space
drawn from the availability result. -/
theorem c10_conversion_assigns_no_space (parking : Parking)
    (ws : List WaitlistEntry) (bookings : List Booking)
    (nextId waitlistId userId : Nat) (now : Int)
    (parking2 : Parking) (bookings2 : List Booking) (nextId2 userId2 : Nat)
    (inputSpaceId : Option String) (s e now2 : Int) :
    (∀ res, convertWaitlistToBooking parking ws bookings nextId waitlistId
        userId now = .ok res →
      res.createdBooking.spaceId = none
      ∧ res.createdBooking.status = .confirmed
      ∧ res.bookings = bookings ++ [res.createdBooking])
    ∧ (∀ bk, (createBooking parking2 bookings2 nextId2 userId2 inputSpaceId
        s e now2).created = some bk →
      ∃ sid, bk.spaceId = some sid
        ∧ sid ∈ (checkAvailability parking2 bookings2 s e).availableSpaces)
    ∧ ((createBooking parking2 bookings2 nextId2 userId2 inputSpaceId
        s e now2).success = true →
      ∃ bk, (createBooking parking2 bookings2 nextId2 userId2 inputSpaceId
        s e now2).created = some bk) := by
  refine ⟨?_, ?_, ?_⟩
  · intro res h
    unfold convertWaitlistToBooking at h
    split at h
    · exact absurd h (by simp)
    · dsimp only at h
      split at h
      · exact absurd h (by simp)
      · split at h
        · exact absurd h (by simp)
        · simp only [Except.ok.injEq] at h
          subst h
          exact ⟨rfl, rfl, rfl⟩
  · intro bk h
    unfold createBooking at h
    split at h
    · exact absurd h (by simp)
    · dsimp only at h
      split at h
      · exact absurd h (by simp)
      · split at h
        · exact absurd h (by simp)
        · rename_i spaceId hsp
          split at h
          · exact absurd h (by simp)
          · rename_i hcont
            split at h
            · simp only [Option.some.injEq] at h
              subst h
              refine ⟨spaceId, rfl, ?_⟩
              simp only [Bool.not_eq_true, Bool.not_eq_false] at hcont
              simpa using hcont
            · exact absurd h (by simp)
  · intro h
    unfold createBooking at h ⊢
    split at h
    · exact absurd h (by simp)
    · rename_i hA
      dsimp only at h ⊢
      split at h
      · exact absurd h (by simp)
      · rename_i hB
        split at h
        · exact absurd h (by simp)
        · rename_i spaceId hsp
          split at h
          · exact absurd h (by simp)
          · rename_i hcont
            split at h
            · rename_i hval
              rw [if_neg hA, if_neg hB, if_neg hcont, if_pos hval]
              exact ⟨_, rfl⟩
            · exact absurd h (by simp)

/-- C10 witness: converting `notifiedEntry` on the empty store yields a
CONFIRMED booking without a space, while a direct `createBooking` on the
same parking carries one. -/
theorem c10_conversion_assigns_no_space_witness :
    (convertWaitlistToBooking capOnePk [notifiedEntry] [] 7 1 101 0).map
        (fun res => res.createdBooking.spaceId) = Except.ok none
    ∧ ∃ sid, ((createBooking capOnePk [] 9 2 none 36000000 39600000 0).created.map
        (fun bk => bk.spaceId)) = some (some sid) := by
  have h := c10_conversion_assigns_no_space capOnePk [notifiedEntry] [] 7 1 101 0
    capOnePk [] 9 2 none 36000000 39600000 0
  constructor
  · obtain ⟨res, hres⟩ : ∃ res,
        convertWaitlistToBooking capOnePk [notifiedEntry] [] 7 1 101 0
          = .ok res := ⟨_, rfl⟩
    rw [hres]
    show Except.ok res.createdBooking.spaceId = Except.ok none
    exact congrArg Except.ok (h.1 res hres).1
  · obtain ⟨bk, hbk⟩ := h.2.2 (by decide)
    obtain ⟨sid, hsid, _⟩ := h.2.1 bk hbk
    exact ⟨sid, by rw [hbk]; simp [hsid]⟩

/-- C5 amended: joining assigns positions `count(ACTIVE)+1` in join order
(101, 102, 103 receive 1, 2, 3), and the renumbering run by leave and
conversion restores contiguous positions 1..N over the ACTIVE entries of
the parking ordered by join time — after 102 leaves, 101 keeps 1 and 103
becomes 2. In general, after `updateWaitlistPositions` the i-th ACTIVE
entry in join-time order holds position i+1 and the number of ACTIVE
entries is unchanged. Promotion to NOTIFIED and expiry do NOT renumber, so
contiguity can break until the next renumbering. -/
theorem c5_fifo_amended (pid : Nat) (ws : List WaitlistEntry)
    (hnd : (ws.map (fun w => w.id)).Nodup) :
    (∀ i (hi : i < (sortedActives pid ws).length),
      ((updateWaitlistPositions pid ws).find?
          (fun w => w.id == ((sortedActives pid ws).get ⟨i, hi⟩).id)).map
        (fun w => w.position) = some (i + 1))
    ∧ ((updateWaitlistPositions pid ws).filter
        (fun w => w.parkingId == pid && w.status == .active)).length
        = (sortedActives pid ws).length
    ∧ waitlistAfterJoins.toOption.map
        (fun l => l.map (fun w => (w.userId, w.position)))
        = some [(101, 1), (102, 2), (103, 3)]
    ∧ (waitlistAfterJoins.bind (fun l => leaveWaitlist l 2 102)).toOption.map
        (fun l => l.map (fun w => (w.userId, w.position, w.status == .active)))
        = some [(101, 1, true), (102, 2, false), (103, 2, true)] := by
  have hperm : (sortedActives pid ws).Perm
      (ws.filter (fun w => w.parkingId == pid && w.status == .active)) :=
    orderByCreatedAt_perm _
  have hndActs : ((sortedActives pid ws).map (fun w => w.id)).Nodup := by
    have h1 : ((ws.filter
        (fun w => w.parkingId == pid && w.status == .active)).map
        (fun w => w.id)).Nodup :=
      List.Nodup.sublist (List.Sublist.map _ (List.filter_sublist ws)) hnd
    exact (hperm.map (fun w => w.id)).symm.nodup h1
  refine ⟨?_, ?_, by decide, by decide⟩
  · intro i hi
    have hmemActs : (sortedActives pid ws).get ⟨i, hi⟩ ∈ sortedActives pid ws :=
      List.get_mem _ i hi
    have hmemF := hperm.mem_iff.mp hmemActs
    have hmemWs : (sortedActives pid ws).get ⟨i, hi⟩ ∈ ws :=
      (List.mem_filter.mp hmemF).1
    unfold updateWaitlistPositions
    rw [List.find?_map]
    have hpred : ((fun w => w.id == ((sortedActives pid ws).get ⟨i, hi⟩).id)
        ∘ applyPositions (sortedActives pid ws))
        = (fun w => w.id == ((sortedActives pid ws).get ⟨i, hi⟩).id) := by
      funext w
      simp [Function.comp, applyPositions_id]
    rw [hpred]
    rw [find?_key_of_nodup (fun w => w.id) ws _ hmemWs hnd]
    have hidx : (sortedActives pid ws).findIdx?
        (fun a => a.id == (sortedActives pid ws)[i].id) = some i := by
      have := findIdx?_key_get (fun w => w.id) (sortedActives pid ws) i hi 0 hndActs
      simpa using this
    simp [applyPositions, hidx]
  · unfold updateWaitlistPositions
    rw [List.filter_map]
    have hpred2 : ((fun w => w.parkingId == pid && w.status == .active)
        ∘ applyPositions (sortedActives pid ws))
        = (fun w => w.parkingId == pid && w.status == .active) := by
      funext w
      simp [Function.comp, applyPositions_parkingId, applyPositions_status]
    rw [hpred2, List.length_map]
    exact hperm.length_eq.symm

/-- C5 witness: the amended theorem applied to `wsPair` — renumbering puts
the older entry (id 2) at position 1 and keeps two ACTIVE entries. -/
theorem c5_fifo_amended_witness :
    ((updateWaitlistPositions 1 wsPair).find?
        (fun w => w.id == ((sortedActives 1 wsPair).get ⟨0, by decide⟩).id)).map
      (fun w => w.position) = some 1
    ∧ ((updateWaitlistPositions 1 wsPair).filter
        (fun w => w.parkingId == 1 && w.status == .active)).length
        = (sortedActives 1 wsPair).length := by
  have h := c5_fifo_amended 1 wsPair (by decide)
  exact ⟨h.1 0 (by decide), h.2.1⟩

/-- C9 counterexample: the recurrence tick run twice with no elapsed time
does NOT create exactly one reservation for each due rule. `dailyRule` is
due (one day overdue), faces no conflict, yet both runs create nothing: the
materialized 09:00 start lies in the past, the booking insert is rejected by
`validateBookingTimes`, and the catch path records the failure WITHOUT
advancing the date, so the rule is due again — and stuck — on the second
run, which fails identically. -/
theorem c9_two_ticks_zero_bookings :
    isDueRule dailyRule overdueNow = true
    ∧ conflictCount overdueState.bookings dailyRule.parkingId
        (ruleStartMs dailyRule) (ruleEndMs dailyRule) = 0
    ∧ ((processRecurringBookings overdueNow overdueState).bind
        (processRecurringBookings overdueNow)).map
        (fun st => (st.bookings.length, st.rules.map (fun r =>
          (r.nextBookingDate, r.failureHistory.length))))
        = some (0, [(0, 2)])
    ∧ some (0 : Nat) ≠ some 1 := by
  refine ⟨by decide, by decide, by decide, by decide⟩

end BParking
